import Mathlib

/-!
A shallow embedding of the `ims-service-utils` library: the `IMS` client class
(its constructor and the operation catalog funnelling into `makeRequest`), the
`generic-middleware` reverse-proxy factory, and the `ims-middleware` factory
built on top of it.  Promises are modelled as `Except String`: a rejected
promise is `Except.error` carrying the rejection reason.  The external
collaborators (the UAA token service reached through `uaa.getToken()` and the
promisified `request` HTTP transport) are modelled as a deterministic stub
environment `Env`; each operation additionally returns a `Trace` recording the
external calls it performed, so that call-count properties can be stated.
-/

namespace ImsUtils

/-- A bearer token as resolved by `uaa.getToken()`; the code reads its
`access_token` property. -/
structure Token where
  access_token : String
deriving Repr, DecidableEq

/-- The outbound HTTP request `makeRequest` hands to the promisified `request`
transport: target url, method, optional JSON body and headers. -/
structure HttpRequest where
  url : String
  method : String
  body : Option String
  headers : List (String × String)
deriving Repr, DecidableEq

/-- A completed transport response; `makeRequest` reads exactly the
`statusCode` and `body` fields. -/
structure Response where
  statusCode : Nat
  body : String
deriving Repr, DecidableEq

/-- The uniform value every IMS operation resolves to: an object with the two
properties `statusCode` and `body` extracted from the response. -/
structure Result where
  statusCode : Nat
  body : String
deriving Repr, DecidableEq

/-- The deterministic stub environment an operation runs against: the outcome
of `uaa.getToken()` and the transport outcome for each request.  An
`Except.error` models a rejected promise. -/
structure Env where
  getToken : Except String Token
  request : HttpRequest → Except String Response

/-- Trace of the external calls one operation performed: how many times
`uaa.getToken()` was invoked, and the HTTP requests handed to the transport in
order. -/
structure Trace where
  tokenCalls : Nat
  httpCalls : List HttpRequest
deriving Repr, DecidableEq

/-- JavaScript `v || d` for an optional string argument: `undefined` (here
`none`) and the empty string are falsy, anything else is returned as is. -/
def jsOr (v : Option String) (d : String) : String :=
  match v with
  | none => d
  | some s => if s = "" then d else s

/-- The literal fallback base URL written in the `IMS` constructor and as the
`defaultImsUrl` constant of `ims-middleware`. -/
def defaultImsUrl : String :=
  "https://intelligent-mapping-prod.run.aws-usw02-pr.ice.predix.io"

/-- The configuration captured by the `IMS` constructor (the `uaa` and
`request` collaborators live in `Env`). -/
structure IMSConfig where
  predixZoneId : String
  subtenantId : String
  imsUrl : String
deriving Repr, DecidableEq

/-- The `IMS` constructor, which stores `imsUrl || defaultImsUrl` on the
instance. -/
def mkIMS (predixZoneId subtenantId : String) (imsUrl : Option String) :
    IMSConfig :=
  { predixZoneId := predixZoneId
    subtenantId := subtenantId
    imsUrl := jsOr imsUrl defaultImsUrl }

namespace IMS

/-- The request object `makeRequest` builds: url
`${this.imsUrl}/v1/${uri}`, the given method and body, `json: true`, and the
three headers `authorization`, `x-subtenant-id` and `predix-zone-id`. -/
def builtRequest (c : IMSConfig) (token : Token) (uri method : String)
    (body : Option String) : HttpRequest :=
  { url := c.imsUrl ++ "/v1/" ++ uri
    method := method
    body := body
    headers := [("authorization", "Bearer " ++ token.access_token),
                ("x-subtenant-id", c.subtenantId),
                ("predix-zone-id", c.predixZoneId)] }

/-- `IMS.makeRequest`: first `yield this.uaa.getToken()` (a rejection
propagates and no HTTP call is made), then `yield this.request(...)` (a
transport rejection propagates), and on any completed response return
`{statusCode: response.statusCode, body: response.body}`. -/
def makeRequest (c : IMSConfig) (env : Env) (uri method : String)
    (body : Option String) : Except String Result × Trace :=
  match env.getToken with
  | .error e => (.error e, ⟨1, []⟩)
  | .ok token =>
    match env.request (builtRequest c token uri method body) with
    | .error e => (.error e, ⟨1, [builtRequest c token uri method body]⟩)
    | .ok response =>
      (.ok ⟨response.statusCode, response.body⟩,
        ⟨1, [builtRequest c token uri method body]⟩)

/-- `IMS.get`. -/
def get (c : IMSConfig) (env : Env) (uri : String) :
    Except String Result × Trace :=
  makeRequest c env uri "GET" none

/-- `IMS.post`. -/
def post (c : IMSConfig) (env : Env) (uri : String) (body : String) :
    Except String Result × Trace :=
  makeRequest c env uri "POST" (some body)

/-- `IMS.put`. -/
def put (c : IMSConfig) (env : Env) (uri : String) (body : String) :
    Except String Result × Trace :=
  makeRequest c env uri "PUT" (some body)

/-- `IMS.getCollections`. -/
def getCollections (c : IMSConfig) (env : Env) :
    Except String Result × Trace :=
  get c env "collections"

/-- `IMS.getCollection`. -/
def getCollection (c : IMSConfig) (env : Env) (collName : String) :
    Except String Result × Trace :=
  get c env ("collections/" ++ collName)

/-- `IMS.postCollection`. -/
def postCollection (c : IMSConfig) (env : Env) (collName body : String) :
    Except String Result × Trace :=
  post c env ("collections/" ++ collName) body

/-- `IMS.spatialQuery`. -/
def spatialQuery (c : IMSConfig) (env : Env) (collName operator body : String) :
    Except String Result × Trace :=
  post c env ("collections/" ++ collName ++ "/spatial-query?operator="
    ++ operator) body

/-- `IMS.getFeatures`. -/
def getFeatures (c : IMSConfig) (env : Env) (collName featureId : String) :
    Except String Result × Trace :=
  get c env ("collections/" ++ collName ++ "/features?id=" ++ featureId)

/-- `IMS.updateFeatures`. -/
def updateFeatures (c : IMSConfig) (env : Env)
    (collName featureId body : String) : Except String Result × Trace :=
  put c env ("collections/" ++ collName ++ "/features?id=" ++ featureId) body

end IMS

/-- Two sequential invocations of the same operation against the same stub
environment, with the external-call traces accumulated. -/
def runTwice (op : Env → Except String Result × Trace) (env : Env) :
    (Except String Result × Except String Result) × Trace :=
  match op env, op env with
  | (r1, t1), (r2, t2) =>
    ((r1, r2), ⟨t1.tokenCalls + t2.tokenCalls, t1.httpCalls ++ t2.httpCalls⟩)

/-- JavaScript property assignment `o[k] = v` on a string-valued object
represented as an ordered key/value list: replace the binding of `k` if
present, otherwise append a new one. -/
def objSet : List (String × String) → String → String → List (String × String)
  | [], k, v => [(k, v)]
  | (k', v') :: rest, k, v =>
    if k' = k then (k, v) :: rest else (k', v') :: objSet rest k v

/-- JavaScript property lookup `o[k]`. -/
def objGet : List (String × String) → String → Option String
  | [], _ => none
  | (k', v') :: rest, k => if k' = k then some v' else objGet rest k

/-- `Object.assign(target, source)`: assign every own property of `source`
onto `target`, in order. -/
def objAssign (target source : List (String × String)) :
    List (String × String) :=
  source.foldl (fun acc kv => objSet acc kv.1 kv.2) target

/-- The incoming express request `(req)` the middleware receives and hands to
the proxy untouched. -/
structure IncomingRequest where
  method : String
  body : Option String
deriving Repr, DecidableEq

/-- The call the middleware hands to `express-request-proxy`: the target url,
the computed headers, and the incoming request passed through. -/
structure ProxyCall where
  url : String
  headers : List (String × String)
  req : IncomingRequest
deriving Repr, DecidableEq

/-- The observable outcome of one middleware invocation on one incoming
request.  `hang` is the outcome when `uaa.getToken()` rejects: the `then`
callback never runs and there is no rejection handler, so the response is
never completed and `next` is never invoked. -/
inductive MiddlewareOutcome where
  | proxied : ProxyCall → MiddlewareOutcome
  | hang : MiddlewareOutcome
deriving Repr, DecidableEq

/-- The header computation in the generic middleware: `let headers = ` a fresh
empty object, then `Object.assign` the configured `additionalHeaders` into it,
then assign the `Authorization` key to the computed Bearer value.  Note the
two writes both target the fresh object, never the configured one. -/
def middlewareHeaders (additionalHeaders : List (String × String))
    (token : Token) : List (String × String) :=
  objSet (objAssign [] additionalHeaders) "Authorization"
    ("Bearer " ++ token.access_token)

/-- The per-request behaviour of the generic middleware factory applied as
`module.exports(uaa, additionalHeaders, url)(uri)`: await `uaa.getToken()`
(with no rejection handler), compute the headers, and hand `(req, res, next)`
to `requestProxy` configured with target `url + uri` and those headers. -/
def genericMiddleware (uaaGetToken : Except String Token)
    (additionalHeaders : List (String × String)) (url uri : String)
    (req : IncomingRequest) : MiddlewareOutcome :=
  match uaaGetToken with
  | .error _ => .hang
  | .ok token =>
    .proxied ⟨url ++ uri, middlewareHeaders additionalHeaders token, req⟩

/-- The properties object accepted by the `ims-middleware` factory. -/
structure IMSMiddlewareProps where
  predixZoneId : String
  subtenantId : String
  clientId : String
  clientSecret : String
  uaaInstanceId : String
  uaaUrl : Option String
  imsUrl : Option String
deriving Repr, DecidableEq

/-- The `uaaUrlTail` constant of `ims-middleware`. -/
def uaaUrlTail : String :=
  ".predix-uaa.run.aws-usw02-pr.ice.predix.io/oauth/token"

/-- The UAA url the `ims-middleware` factory configures:
`props.uaaUrl || https://${props.uaaInstanceId}${uaaUrlTail}`. -/
def imsMiddlewareUaaUrl (props : IMSMiddlewareProps) : String :=
  jsOr props.uaaUrl ("https://" ++ props.uaaInstanceId ++ uaaUrlTail)

/-- The static headers object built by the `ims-middleware` factory. -/
def imsMiddlewareHeaders (props : IMSMiddlewareProps) :
    List (String × String) :=
  [("Predix-Zone-Id", props.predixZoneId),
   ("x-subtenant-id", props.subtenantId),
   ("content-type", "application/json")]

/-- The per-request behaviour of the router produced by `ims-middleware`:
the router registers all methods on the wildcard route and forwards to
`middleware` applied to the wildcard suffix, where `middleware` is
`genericMiddleware(uaa, headers, props.imsUrl || defaultImsUrl)`. -/
def imsMiddleware (props : IMSMiddlewareProps)
    (uaaGetToken : Except String Token) (req : IncomingRequest) :
    MiddlewareOutcome :=
  genericMiddleware uaaGetToken (imsMiddlewareHeaders props)
    (jsOr props.imsUrl defaultImsUrl) "/*" req

/- Helper lemmas about string concatenation and the object model. -/

theorem str_append_assoc (a b c : String) : a ++ b ++ c = a ++ (b ++ c) := by
  rcases a with ⟨a⟩
  rcases b with ⟨b⟩
  rcases c with ⟨c⟩
  show String.mk (a ++ b ++ c) = String.mk (a ++ (b ++ c))
  rw [List.append_assoc]

theorem v1_collections_merge (r : String) :
    ("/v1/" : String) ++ ("collections/" ++ r) = "/v1/collections/" ++ r := by
  rw [← str_append_assoc]
  exact congrArg (· ++ r) rfl

theorem objGet_objSet_same (o : List (String × String)) (k v : String) :
    objGet (objSet o k v) k = some v := by
  induction o with
  | nil => simp [objSet, objGet]
  | cons hd tl ih =>
    by_cases h : hd.1 = k
    · simp [objSet, objGet, h]
    · simp [objSet, objGet, h, ih]

theorem objGet_objSet_other (o : List (String × String)) (k k' v : String)
    (h : k' ≠ k) : objGet (objSet o k v) k' = objGet o k' := by
  have hne : ¬ k = k' := fun hh => h hh.symm
  induction o with
  | nil => simp [objSet, objGet, hne]
  | cons hd tl ih =>
    by_cases hk : hd.1 = k
    · have h2 : ¬ hd.1 = k' := by rw [hk]; exact hne
      simp [objSet, objGet, hk, hne, h2]
    · by_cases hk' : hd.1 = k'
      · simp [objSet, objGet, hk, hk', h]
      · simp [objSet, objGet, hk, hk', ih]

theorem objGet_eq_none_of_forall_ne (s : List (String × String)) (k : String)
    (h : ∀ kv ∈ s, k ≠ kv.1) : objGet s k = none := by
  induction s with
  | nil => simp [objGet]
  | cons hd tl ih =>
    have h1 : hd.1 ≠ k := fun hh => h hd (by simp) hh.symm
    simp only [objGet, if_neg h1]
    exact ih fun kv hkv => h kv (by simp [hkv])

theorem objGet_objAssign (s : List (String × String)) :
    ∀ (t : List (String × String)) (k : String),
      s.Pairwise (fun a b => a.1 ≠ b.1) →
      objGet (objAssign t s) k =
        match objGet s k with
        | some v => some v
        | none => objGet t k := by
  induction s with
  | nil => intro t k _; simp [objAssign, objGet]
  | cons hd tl ih =>
    intro t k hp
    rcases List.pairwise_cons.mp hp with ⟨hhd, htl⟩
    have step : objAssign t (hd :: tl) = objAssign (objSet t hd.1 hd.2) tl :=
      rfl
    rw [step, ih (objSet t hd.1 hd.2) k htl]
    by_cases hk : hd.1 = k
    · subst hk
      have : objGet tl hd.1 = none :=
        objGet_eq_none_of_forall_ne tl hd.1 fun kv hkv hh =>
          hhd kv hkv hh
      simp [objGet, this, objGet_objSet_same]
    · have hne : k ≠ hd.1 := fun hh => hk hh.symm
      simp only [objGet, if_neg hk]
      cases hget : objGet tl k with
      | none => simp [objGet_objSet_other t hd.1 k hd.2 hne]
      | some v => simp

theorem objGet_objAssign_nil (s : List (String × String)) (k : String)
    (h : s.Pairwise (fun a b => a.1 ≠ b.1)) :
    objGet (objAssign [] s) k = objGet s k := by
  rw [objGet_objAssign s [] k h]
  cases objGet s k <;> simp [objGet]

theorem makeRequest_error_env (c : IMSConfig)
    (rf : HttpRequest → Except String Response) (e uri method : String)
    (body : Option String) :
    IMS.makeRequest c ⟨.error e, rf⟩ uri method body = (.error e, ⟨1, []⟩) :=
  rfl

theorem makeRequest_ok_env (c : IMSConfig) (t : Token)
    (rf : HttpRequest → Except String Response) (uri method : String)
    (body : Option String) :
    IMS.makeRequest c ⟨.ok t, rf⟩ uri method body =
      match rf (IMS.builtRequest c t uri method body) with
      | .error e => (.error e, ⟨1, [IMS.builtRequest c t uri method body]⟩)
      | .ok response =>
        (.ok ⟨response.statusCode, response.body⟩,
          ⟨1, [IMS.builtRequest c t uri method body]⟩) := rfl

theorem makeRequest_httpCalls_ok (c : IMSConfig) (t : Token)
    (rf : HttpRequest → Except String Response) (uri method : String)
    (body : Option String) :
    (IMS.makeRequest c ⟨.ok t, rf⟩ uri method body).2.httpCalls =
      [IMS.builtRequest c t uri method body] := by
  show (match rf (IMS.builtRequest c t uri method body) with
    | .error e => ((.error e : Except String Result),
        (⟨1, [IMS.builtRequest c t uri method body]⟩ : Trace))
    | .ok response =>
      (.ok ⟨response.statusCode, response.body⟩,
        ⟨1, [IMS.builtRequest c t uri method body]⟩)).2.httpCalls =
    [IMS.builtRequest c t uri method body]
  cases rf (IMS.builtRequest c t uri method body) <;> rfl

theorem makeRequest_tokenCalls_one (c : IMSConfig) (env : Env)
    (uri method : String) (body : Option String) :
    (IMS.makeRequest c env uri method body).2.tokenCalls = 1 := by
  rcases env with ⟨gt, rf⟩
  cases gt with
  | error e => rfl
  | ok t =>
    show (match rf (IMS.builtRequest c t uri method body) with
      | .error e => ((.error e : Except String Result),
          (⟨1, [IMS.builtRequest c t uri method body]⟩ : Trace))
      | .ok response =>
        (.ok ⟨response.statusCode, response.body⟩,
          ⟨1, [IMS.builtRequest c t uri method body]⟩)).2.tokenCalls = 1
    cases rf (IMS.builtRequest c t uri method body) <;> rfl

/- Sample concrete inputs shared by the witnesses below. -/

def cfgW : IMSConfig := mkIMS "zone" "sub" (some "https://ims.example")

/- The claim theorems. -/

/-- Claim C1: for every IMS operation and every `(statusCode, body)` pair the
HTTP transport completes with — 4xx and 5xx included — the operation resolves
to exactly the object with those `statusCode` and `body` fields and never
rejects; conversely a rejection can only come from a token-acquisition
failure or a transport failure.  All operations funnel through
`IMS.makeRequest`, so the statement quantifies over the `uri`, `method` and
`body` each operation supplies. -/
theorem transport_completion_becomes_result (c : IMSConfig)
    (uri method : String) (body : Option String) :
    (∀ (t : Token) (f : HttpRequest → Response),
      (IMS.makeRequest c ⟨.ok t, fun r => .ok (f r)⟩ uri method body).1 =
        .ok ⟨(f (IMS.builtRequest c t uri method body)).statusCode,
          (f (IMS.builtRequest c t uri method body)).body⟩) ∧
    (∀ (gt : Except String Token) (rf : HttpRequest → Except String Response)
      (e : String),
      (IMS.makeRequest c ⟨gt, rf⟩ uri method body).1 = .error e →
        gt = .error e ∨
          ∃ t, gt = .ok t ∧
            rf (IMS.builtRequest c t uri method body) = .error e) := by
  constructor
  · intro t f
    rfl
  · intro gt rf e h
    cases gt with
    | error e' =>
      rw [makeRequest_error_env] at h
      simp only [Except.error.injEq] at h
      subst h
      exact Or.inl rfl
    | ok t =>
      rw [makeRequest_ok_env] at h
      cases hr : rf (IMS.builtRequest c t uri method body) with
      | error e' =>
        rw [hr] at h
        simp only [Except.error.injEq] at h
        subst h
        exact Or.inr ⟨t, rfl, hr⟩
      | ok resp =>
        rw [hr] at h
        exact absurd h (by simp)

theorem transport_completion_becomes_result_witness :
    (IMS.makeRequest cfgW ⟨.ok ⟨"TOK"⟩, fun _ => .ok ⟨403, "forbidden"⟩⟩
        "collections/x" "GET" none).1 = .ok ⟨403, "forbidden"⟩ ∧
    ((.ok ⟨"TOK"⟩ : Except String Token) = .error "ECONNREFUSED" ∨
      ∃ t, (.ok ⟨"TOK"⟩ : Except String Token) = .ok t ∧
        (fun (_ : HttpRequest) =>
            (.error "ECONNREFUSED" : Except String Response))
          (IMS.builtRequest cfgW t "collections/x" "GET" none) =
          .error "ECONNREFUSED") :=
  ⟨(transport_completion_becomes_result cfgW "collections/x" "GET" none).1
      ⟨"TOK"⟩ (fun _ => ⟨403, "forbidden"⟩),
    (transport_completion_becomes_result cfgW "collections/x" "GET" none).2
      (.ok ⟨"TOK"⟩) (fun _ => .error "ECONNREFUSED") "ECONNREFUSED" rfl⟩

/-- Claim C2: for every IMS operation, if `uaa.getToken()` rejects with some
error `e` the operation rejects with that same error `e`, and the HTTP
transport is invoked zero times (the trace of outbound calls is empty). -/
theorem token_rejection_propagates_no_call (c : IMSConfig)
    (rf : HttpRequest → Except String Response)
    (e uri method name id op bodyStr : String) (body : Option String) :
    IMS.makeRequest c ⟨.error e, rf⟩ uri method body = (.error e, ⟨1, []⟩) ∧
    IMS.getCollections c ⟨.error e, rf⟩ = (.error e, ⟨1, []⟩) ∧
    IMS.getCollection c ⟨.error e, rf⟩ name = (.error e, ⟨1, []⟩) ∧
    IMS.postCollection c ⟨.error e, rf⟩ name bodyStr = (.error e, ⟨1, []⟩) ∧
    IMS.spatialQuery c ⟨.error e, rf⟩ name op bodyStr =
      (.error e, ⟨1, []⟩) ∧
    IMS.getFeatures c ⟨.error e, rf⟩ name id = (.error e, ⟨1, []⟩) ∧
    IMS.updateFeatures c ⟨.error e, rf⟩ name id bodyStr =
      (.error e, ⟨1, []⟩) :=
  ⟨rfl, rfl, rfl, rfl, rfl, rfl, rfl⟩

/-- Claim C3 (code bug): the claim asks that the forwarding middleware
complete the client response with a 500/502-class status when
`uaa.getToken()` rejects.  The source instead attaches only a `then` callback
and no rejection handler, so on a token rejection the request ends in the
`hang` outcome: the response is never completed and `next` is never invoked.
This theorem evaluates the middleware at a concrete failing input. -/
theorem middleware_token_failure_hangs :
    genericMiddleware (.error "Error getting token: 401")
      [("Predix-Zone-Id", "z1"), ("x-subtenant-id", "s1"),
        ("content-type", "application/json")]
      defaultImsUrl "/v1/collections" ⟨"GET", none⟩ = .hang := rfl

/-- Claim C4: path construction of the operation catalog.  With a token in
hand, `getCollection name` issues exactly one GET to
`imsUrl ++ "/v1/collections/" ++ name`, `getFeatures name id` one GET to
`imsUrl ++ "/v1/collections/" ++ name ++ "/features?id=" ++ id`, and
`spatialQuery name op body` one POST to `imsUrl ++ "/v1/collections/" ++ name
++ "/spatial-query?operator=" ++ op` carrying exactly the given body;
identifiers are concatenated verbatim, with no escaping or validation. -/
theorem operation_path_construction (c : IMSConfig) (t : Token)
    (rf : HttpRequest → Except String Response) (name id op bodyStr : String) :
    ((IMS.getCollection c ⟨.ok t, rf⟩ name).2.httpCalls.map
        (fun r => (r.method, r.url, r.body)) =
      [("GET", c.imsUrl ++ "/v1/collections/" ++ name,
        (none : Option String))]) ∧
    ((IMS.getFeatures c ⟨.ok t, rf⟩ name id).2.httpCalls.map
        (fun r => (r.method, r.url, r.body)) =
      [("GET",
        c.imsUrl ++ "/v1/collections/" ++ name ++ "/features?id=" ++ id,
        (none : Option String))]) ∧
    ((IMS.spatialQuery c ⟨.ok t, rf⟩ name op bodyStr).2.httpCalls.map
        (fun r => (r.method, r.url, r.body)) =
      [("POST",
        c.imsUrl ++ "/v1/collections/" ++ name ++ "/spatial-query?operator="
          ++ op,
        some bodyStr)]) := by
  refine ⟨?_, ?_, ?_⟩
  · rw [IMS.getCollection, IMS.get, makeRequest_httpCalls_ok]
    simp [IMS.builtRequest, str_append_assoc, v1_collections_merge]
  · rw [IMS.getFeatures, IMS.get, makeRequest_httpCalls_ok]
    simp [IMS.builtRequest, str_append_assoc, v1_collections_merge]
  · rw [IMS.spatialQuery, IMS.post, makeRequest_httpCalls_ok]
    simp [IMS.builtRequest, str_append_assoc, v1_collections_merge]

/-- Claim C5: every outbound request the dispatcher issues, for every
operation and every successfully obtained token, carries exactly the
`authorization` header with value `Bearer ` plus the access token, the
`x-subtenant-id` header set to the configured subtenant id, and the
`predix-zone-id` header set to the configured zone id, with the given body
passed as JSON. -/
theorem outbound_request_headers (c : IMSConfig) (t : Token)
    (rf : HttpRequest → Except String Response) (uri method : String)
    (body : Option String) :
    ∀ r ∈ (IMS.makeRequest c ⟨.ok t, rf⟩ uri method body).2.httpCalls,
      r.headers = [("authorization", "Bearer " ++ t.access_token),
        ("x-subtenant-id", c.subtenantId),
        ("predix-zone-id", c.predixZoneId)] ∧ r.body = body := by
  intro r hr
  rw [makeRequest_httpCalls_ok] at hr
  have h := List.mem_singleton.mp hr
  subst h
  exact ⟨rfl, rfl⟩

theorem outbound_request_headers_witness :
    (IMS.builtRequest cfgW ⟨"TOK"⟩ "collections" "GET" none) ∈
      (IMS.makeRequest cfgW ⟨.ok ⟨"TOK"⟩, fun _ => .ok ⟨200, "ok"⟩⟩
        "collections" "GET" none).2.httpCalls ∧
    ((IMS.builtRequest cfgW ⟨"TOK"⟩ "collections" "GET" none).headers =
      [("authorization", "Bearer TOK"), ("x-subtenant-id", "sub"),
        ("predix-zone-id", "zone")] ∧
      (IMS.builtRequest cfgW ⟨"TOK"⟩ "collections" "GET" none).body = none) :=
  ⟨List.mem_singleton.mpr rfl,
    outbound_request_headers cfgW ⟨"TOK"⟩ (fun _ => .ok ⟨200, "ok"⟩)
      "collections" "GET" none
      (IMS.builtRequest cfgW ⟨"TOK"⟩ "collections" "GET" none)
      (List.mem_singleton.mpr rfl)⟩

/-- Claim C6: forwarding middleware success path.  For every incoming request
on a configured route and every token the provider resolves with, the proxied
call targets exactly `targetUrl ++ uri`, the incoming request (method and
body) is handed through unchanged, and the computed headers are the
configured static headers plus the `Authorization` Bearer header: the
`Authorization` lookup yields the Bearer value and, for a header object with
distinct keys, every other key looks up to its configured value. -/
theorem forwarding_success_path (additional : List (String × String))
    (hdist : additional.Pairwise (fun a b => a.1 ≠ b.1))
    (url uri : String) (req : IncomingRequest) (t : Token) (k : String)
    (hk : k ≠ "Authorization") :
    genericMiddleware (.ok t) additional url uri req =
      .proxied ⟨url ++ uri, middlewareHeaders additional t, req⟩ ∧
    objGet (middlewareHeaders additional t) "Authorization" =
      some ("Bearer " ++ t.access_token) ∧
    objGet (middlewareHeaders additional t) k = objGet additional k := by
  refine ⟨rfl, objGet_objSet_same _ _ _, ?_⟩
  rw [middlewareHeaders, objGet_objSet_other _ _ _ _ hk,
    objGet_objAssign_nil additional k hdist]

theorem forwarding_success_path_witness :
    genericMiddleware (.ok ⟨"T"⟩)
        [("Predix-Zone-Id", "z1"), ("x-subtenant-id", "s1"),
          ("content-type", "application/json")]
        "https://target.example" "/v1/collections" ⟨"GET", none⟩ =
      .proxied ⟨"https://target.example" ++ "/v1/collections",
        middlewareHeaders
          [("Predix-Zone-Id", "z1"), ("x-subtenant-id", "s1"),
            ("content-type", "application/json")] ⟨"T"⟩,
        ⟨"GET", none⟩⟩ ∧
    objGet (middlewareHeaders
        [("Predix-Zone-Id", "z1"), ("x-subtenant-id", "s1"),
          ("content-type", "application/json")] ⟨"T"⟩) "Authorization" =
      some ("Bearer " ++ "T") ∧
    objGet (middlewareHeaders
        [("Predix-Zone-Id", "z1"), ("x-subtenant-id", "s1"),
          ("content-type", "application/json")] ⟨"T"⟩) "Predix-Zone-Id" =
      objGet [("Predix-Zone-Id", "z1"), ("x-subtenant-id", "s1"),
        ("content-type", "application/json")] "Predix-Zone-Id" :=
  forwarding_success_path
    [("Predix-Zone-Id", "z1"), ("x-subtenant-id", "s1"),
      ("content-type", "application/json")]
    (by decide) "https://target.example" "/v1/collections" ⟨"GET", none⟩
    ⟨"T"⟩ "Predix-Zone-Id" (by decide)

/-- Claim C7: each single invocation of an operation performs exactly one call
to `uaa.getToken()` (first conjunct, for any environment), so issuing the
same GET operation twice against a stub transport returning identical
responses yields two identical results and exactly two token fetches — no
token is cached or reused across calls. -/
theorem one_token_fetch_per_invocation (c : IMSConfig) (uri : String)
    (t : Token) (f : HttpRequest → Response) :
    (∀ env : Env, (IMS.get c env uri).2.tokenCalls = 1) ∧
    (runTwice (fun env => IMS.get c env uri) ⟨.ok t, fun r => .ok (f r)⟩).1.1 =
      (runTwice (fun env => IMS.get c env uri)
        ⟨.ok t, fun r => .ok (f r)⟩).1.2 ∧
    (runTwice (fun env => IMS.get c env uri)
      ⟨.ok t, fun r => .ok (f r)⟩).2.tokenCalls = 2 :=
  ⟨fun env => makeRequest_tokenCalls_one c env uri "GET" none, rfl, rfl⟩

/-- Claim C8: with no `imsUrl` supplied (and likewise with the falsy empty
string), both the `IMS` constructor and the ims-middleware factory fall back
to the literal production base URL; a supplied non-empty `imsUrl` replaces it
for that instance only.  The fallback is an immutable constant default, not
mutable state: `defaultImsUrl` is a plain definition and each constructed
configuration owns its own `imsUrl` value. -/
theorem default_base_url_fallback (z s u : String)
    (props : IMSMiddlewareProps) (t : Token) (req : IncomingRequest)
    (hu : u ≠ "") (hprops : props.imsUrl = none) :
    (mkIMS z s none).imsUrl =
      "https://intelligent-mapping-prod.run.aws-usw02-pr.ice.predix.io" ∧
    (mkIMS z s (some u)).imsUrl = u ∧
    imsMiddleware props (.ok t) req =
      .proxied
        ⟨"https://intelligent-mapping-prod.run.aws-usw02-pr.ice.predix.io/*",
          middlewareHeaders (imsMiddlewareHeaders props) t, req⟩ := by
  refine ⟨rfl, ?_, ?_⟩
  · simp [mkIMS, jsOr, hu]
  · unfold imsMiddleware
    rw [hprops]
    rfl

theorem default_base_url_fallback_witness :
    (mkIMS "zone" "sub" none).imsUrl =
      "https://intelligent-mapping-prod.run.aws-usw02-pr.ice.predix.io" ∧
    (mkIMS "zone" "sub" (some "https://other.example")).imsUrl =
      "https://other.example" ∧
    imsMiddleware ⟨"zone", "sub", "cid", "csec", "uid", none, none⟩
        (.ok ⟨"T"⟩) ⟨"GET", none⟩ =
      .proxied
        ⟨"https://intelligent-mapping-prod.run.aws-usw02-pr.ice.predix.io/*",
          middlewareHeaders
            (imsMiddlewareHeaders
              ⟨"zone", "sub", "cid", "csec", "uid", none, none⟩) ⟨"T"⟩,
          ⟨"GET", none⟩⟩ :=
  default_base_url_fallback "zone" "sub" "https://other.example"
    ⟨"zone", "sub", "cid", "csec", "uid", none, none⟩ ⟨"T"⟩ ⟨"GET", none⟩
    (by decide) rfl

/-- Claim C9: the headers for the proxied call are built in a fresh object —
the two header writes in `middlewareHeaders` target an object freshly grown
from the empty object, so the configured `additionalHeaders` value reaches
every request unchanged — and, because the Bearer value is assigned after the
copy, it overwrites an `Authorization` key present in the configured static
headers: even when the configuration binds `Authorization` to some `v`, the
proxied call carries the freshly computed Bearer value, while every other
key looks up exactly as in the copied configuration. -/
theorem fresh_headers_and_auth_overwrite (rest : List (String × String))
    (v url uri : String) (req : IncomingRequest) (t : Token) (k : String)
    (hk : k ≠ "Authorization") :
    genericMiddleware (.ok t) (("Authorization", v) :: rest) url uri req =
      .proxied ⟨url ++ uri,
        middlewareHeaders (("Authorization", v) :: rest) t, req⟩ ∧
    objGet (middlewareHeaders (("Authorization", v) :: rest) t)
        "Authorization" = some ("Bearer " ++ t.access_token) ∧
    objGet (middlewareHeaders (("Authorization", v) :: rest) t) k =
      objGet (objAssign [] (("Authorization", v) :: rest)) k := by
  refine ⟨rfl, objGet_objSet_same _ _ _, ?_⟩
  rw [middlewareHeaders, objGet_objSet_other _ _ _ _ hk]

theorem fresh_headers_and_auth_overwrite_witness :
    genericMiddleware (.ok ⟨"T"⟩)
        [("Authorization", "Bearer STALE"), ("content-type",
          "application/json")]
        "https://target.example" "/v1/collections" ⟨"GET", none⟩ =
      .proxied ⟨"https://target.example" ++ "/v1/collections",
        middlewareHeaders
          [("Authorization", "Bearer STALE"),
            ("content-type", "application/json")] ⟨"T"⟩,
        ⟨"GET", none⟩⟩ ∧
    objGet (middlewareHeaders
        [("Authorization", "Bearer STALE"),
          ("content-type", "application/json")] ⟨"T"⟩) "Authorization" =
      some ("Bearer " ++ "T") ∧
    objGet (middlewareHeaders
        [("Authorization", "Bearer STALE"),
          ("content-type", "application/json")] ⟨"T"⟩) "content-type" =
      objGet (objAssign []
        [("Authorization", "Bearer STALE"),
          ("content-type", "application/json")]) "content-type" :=
  fresh_headers_and_auth_overwrite
    [("content-type", "application/json")] "Bearer STALE"
    "https://target.example" "/v1/collections" ⟨"GET", none⟩ ⟨"T"⟩
    "content-type" (by decide)

/-- Claim C10: the ims-middleware factory unconditionally includes the
`content-type: application/json` entry, together with the `Predix-Zone-Id`
and `x-subtenant-id` entries, in the static headers merged into every
forwarded request, so every request proxied through it carries content-type
`application/json` regardless of the incoming request. -/
theorem ims_middleware_forces_json_content_type (props : IMSMiddlewareProps)
    (t : Token) (req : IncomingRequest) :
    imsMiddleware props (.ok t) req =
      .proxied ⟨jsOr props.imsUrl defaultImsUrl ++ "/*",
        middlewareHeaders (imsMiddlewareHeaders props) t, req⟩ ∧
    objGet (middlewareHeaders (imsMiddlewareHeaders props) t)
      "content-type" = some "application/json" ∧
    objGet (middlewareHeaders (imsMiddlewareHeaders props) t)
      "Predix-Zone-Id" = some props.predixZoneId ∧
    objGet (middlewareHeaders (imsMiddlewareHeaders props) t)
      "x-subtenant-id" = some props.subtenantId :=
  ⟨rfl, rfl, rfl, rfl⟩

end ImsUtils
